import Mathlib

/-!
Shallow embedding of the reconciliation core of the iambic repository:

* iambic/core/git.py — git change classification and deletion inference
  (retrieve_git_changes, create_templates_for_modified_files);
* iambic/aws/iam/policy/utils.py — managed-policy drift reconciliation
  (get_managed_policy, get_oldest_policy_version_id, update_managed_policy,
  apply_managed_policy_tags).

Python re.search with metacharacter-free literal patterns is modelled as
substring containment; Python dicts as association lists with last-wins
lookup; the DeepDiff library's ignore_order / report_repetition diff test
as an order-insensitive (multiset) structural equality on a JSON-like value
type; provider calls as an explicit trace of call descriptions.
-/

/-- Does the character list p occur at the head of s?  (Helper for the
substring model of re.search.) -/
def startsWithL : List Char → List Char → Bool
  | [], _ => true
  | _ :: _, [] => false
  | a :: as, b :: bs => a == b && startsWithL as bs

/-- Does the character list p occur contiguously anywhere inside s? -/
def containsL (p : List Char) : List Char → Bool
  | [] => p.isEmpty
  | c :: rest => startsWithL p (c :: rest) || containsL p rest

/-- Models Python re.search(pat, s) returning a match, for patterns that are
metacharacter-free literals: the pattern occurs as a substring of s.
The empty pattern matches every string, as in Python. -/
def reSearch (pat s : String) : Bool :=
  containsL pat.data s.data

/-- Models "\n".join(xs). -/
def joinNL (xs : List String) : String :=
  String.intercalate "\n" xs

/-- One entry of config.accounts: a known cloud account (AccountRoster
element), with its id and name. -/
structure Account where
  account_id : String
  account_name : String
deriving DecidableEq, Repr

/-- Deletion record from iambic.core.models (the Deleted model): scoped
removal with its own included/excluded account pattern lists. -/
structure Deleted where
  included_accounts : List String
  excluded_accounts : List String
deriving DecidableEq, Repr

/-- The deleted field of a template: either a plain boolean or a list of
per-account deletion records. -/
inductive DeletedVal where
  | flag (b : Bool)
  | records (l : List Deleted)
deriving DecidableEq, Repr

/-- Parsed template as used by create_templates_for_modified_files:
resource_name, account scope lists and the deleted field. -/
structure Template where
  resource_name : String
  included_accounts : List String
  excluded_accounts : List String
  deleted : DeletedVal
deriving DecidableEq, Repr

/-- Models the f-string rf"({account_id}|{account_name})" built at
git.py lines 155-157. -/
def accountRegex (a : Account) : String :=
  "(" ++ a.account_id ++ "|" ++ a.account_name ++ ")"

/-- Models re.search(rf"({id}|{name})", s) for literal id and name: the
alternation matches iff either branch occurs as a substring of s. -/
def accountMatchesStr (a : Account) (s : String) : Bool :=
  reSearch a.account_id s || reSearch a.account_name s

/-- Accounts implicitly removed from a wildcard scope (git.py lines
154-173): every config account whose id|name regex finds no match in the
newline-join of the new template's included_accounts is marked, as its
"(id|name)" pattern. -/
def wildcardRemovedMarks (accounts : List Account) (dexStr : String) : List String :=
  (accounts.filter (fun a => !(accountMatchesStr a dexStr))).map accountRegex

/-- Accounts explicitly removed from an enumerated included_accounts list
(git.py lines 188-204): every old included pattern that finds no match in
the newline-join of the new template's included_accounts is marked. -/
def explicitRemovedMarks (mainIncluded : List String) (dexStr : String) : List String :=
  mainIncluded.filter (fun p => !(reSearch p dexStr))

/-- Deletion marks contributed by the removed-from-included steps (git.py
lines 139-204), guarded by the absence of "*" in the new included_accounts
and switched on the presence of "*" in the old included_accounts. -/
def includedRemovalMarks (accounts : List Account) (mt t : Template) : List String :=
  let dexStr := joinNL t.included_accounts
  if t.included_accounts.contains "*" then []
  else if mt.included_accounts.contains "*" then wildcardRemovedMarks accounts dexStr
  else explicitRemovedMarks mt.included_accounts dexStr

/-- Models the truthiness-guarded already-excluded test of git.py lines
206-211 and 226-228: the joined old excluded_accounts string is non-empty
(a None or empty join is falsy in Python) and re.search finds the pattern
in it. -/
def alreadyExcluded (mt : Template) (account : String) : Bool :=
  joinNL mt.excluded_accounts != "" && reSearch account (joinNL mt.excluded_accounts)

/-- Branch test of git.py lines 236-239: a newly excluded pattern is marked
for deletion when it is not already excluded and it was previously included
(matches the joined old included_accounts, or the old scope was "*"). -/
def newlyExcludedDeleted (mt : Template) (account : String) : Bool :=
  !(alreadyExcluded mt account) &&
    (reSearch account (joinNL mt.included_accounts) || mt.included_accounts.contains "*")

/-- Deletion marks contributed by the newly-excluded step (git.py lines
225-254): the new excluded patterns that hit the deletion branch, in order. -/
def excludedRemovalMarks (mt t : Template) : List String :=
  t.excluded_accounts.filter (newlyExcludedDeleted mt)

/-- Final excluded_accounts recomputed at git.py lines 225-256: the new
excluded patterns that did not hit the deletion branch, in order. -/
def keptExcluded (mt t : Template) : List String :=
  t.excluded_accounts.filter (fun a => !(newlyExcludedDeleted mt a))

/-- The full deleted_included_accounts list accumulated across git.py lines
134-254: removed-from-included marks first, then newly-excluded marks. -/
def deleted_included_accounts (accounts : List Account) (mt t : Template) : List String :=
  includedRemovalMarks accounts mt t ++ excludedRemovalMarks mt t

/-- Per-file body of create_templates_for_modified_files (git.py lines
126-269) for one modified file: mt is the parsed main-branch template
(main_template), t the parsed working-tree template (template).  The
snapshot deleted_exclude_accounts = [*template.included_accounts] is taken
before any append, so every regex search against its join and the new
Deleted record's excluded_accounts use the unmutated new included list. -/
def processModifiedTemplate (accounts : List Account) (mt t : Template) : Template :=
  let snapshot := t.included_accounts
  let marks := deleted_included_accounts accounts mt t
  let deletedF :=
    if !marks.isEmpty && !(t.deleted == DeletedVal.flag true) then
      match t.deleted with
      | DeletedVal.flag _ =>
          DeletedVal.records [⟨marks, snapshot.filter (fun ea => !(ea == "*"))⟩]
      | DeletedVal.records l =>
          DeletedVal.records (l ++ [⟨marks, snapshot.filter (fun ea => !(ea == "*"))⟩])
    else t.deleted
  { t with
      included_accounts := t.included_accounts ++ marks
      excluded_accounts := keptExcluded mt t
      deleted := deletedF }

/-- create_templates_for_modified_files (git.py lines 116-271), with the
yaml parsing of each GitDiff abstracted away: each modified file is given
as its parsed (main_template, template) pair. -/
def create_templates_for_modified_files
    (accounts : List Account) (modified : List (Template × Template)) : List Template :=
  modified.map (fun p => processModifiedTemplate accounts p.1 p.2)

/-- JSON-like structured document value, as parsed from yaml: primitives
(collapsed into their string rendering), arrays and objects.  Objects model
Python dicts, so their key lists are unique. -/
inductive JVal where
  | prim (v : String)
  | arr (l : List JVal)
  | obj (l : List (String × JVal))
deriving Repr

/-- Last-wins association lookup, modelling Python dict construction from a
key-value sequence followed by d.get(k). -/
def lookupJ (k : String) (l : List (String × JVal)) : Option JVal :=
  l.foldl (fun acc kv => if kv.1 == k then some kv.2 else acc) none

/-- Removes the first element satisfying p from a list, or returns none. -/
def removeFirstBy (p : α → Bool) : List α → Option (List α)
  | [] => none
  | y :: ys => if p y then some ys else (removeFirstBy p ys).map (fun l => y :: l)

/-- Multiset (order-insensitive, repetition-aware) equality of two lists up
to an element equality test: every element of the first list consumes one
matching element of the second. -/
def msetEqBy (eq : α → α → Bool) : List α → List α → Bool
  | [], ys => ys.isEmpty
  | x :: xs, ys =>
    match removeFirstBy (eq x) ys with
    | some ys2 => msetEqBy eq xs ys2
    | none => false

/-- Dict equality up to a value equality test: both key sets agree and the
looked-up values are equal key by key. -/
def objEqBy (eq : JVal → JVal → Bool) (xs ys : List (String × JVal)) : Bool :=
  xs.all (fun kv => match lookupJ kv.1 ys with
    | some v => eq kv.2 v
    | none => false) &&
  ys.all (fun kv => match lookupJ kv.1 xs with
    | some v => eq kv.2 v
    | none => false)

/-- Fuel-indexed structural equality up to ordering: arrays are compared as
multisets, objects as dicts.  Models emptiness of
DeepDiff(a, b, ignore_order=True, report_repetition=True). -/
def deepEqF : Nat → JVal → JVal → Bool
  | 0, _, _ => false
  | _ + 1, JVal.prim x, JVal.prim y => x == y
  | f + 1, JVal.arr xs, JVal.arr ys => msetEqBy (fun a b => deepEqF f a b) xs ys
  | f + 1, JVal.obj xs, JVal.obj ys => objEqBy (fun a b => deepEqF f a b) xs ys
  | _ + 1, _, _ => false

mutual

/-- Node count of a document, used as recursion fuel. -/
def jsize : JVal → Nat
  | JVal.prim _ => 1
  | JVal.arr l => 1 + jsizeL l
  | JVal.obj l => 1 + jsizeP l

/-- Node count of a list of documents. -/
def jsizeL : List JVal → Nat
  | [] => 0
  | x :: xs => jsize x + jsizeL xs

/-- Node count of a key-value list. -/
def jsizeP : List (String × JVal) → Nat
  | [] => 0
  | kv :: xs => jsize kv.2 + jsizeP xs

end

/-- Structural equality up to ordering of two documents, with enough fuel to
fully traverse both. -/
def deepEq (a b : JVal) : Bool :=
  deepEqF (jsize a + jsize b) a b

/-- One live managed-policy version as returned by list_policy_versions:
VersionId, default flag, creation timestamp. -/
structure PolicyVersion where
  VersionId : String
  IsDefaultVersion : Bool
  CreateDate : Nat
deriving DecidableEq, Repr

/-- Comparison key of the sorted call at utils.py line 61 (stable sort by
CreateDate, as Python's sorted). -/
def byCreateDate (a b : PolicyVersion) : Prop :=
  a.CreateDate ≤ b.CreateDate

instance : DecidableRel byCreateDate :=
  fun a b => inferInstanceAs (Decidable (a.CreateDate ≤ b.CreateDate))

instance : IsTotal PolicyVersion byCreateDate :=
  ⟨fun a b => Nat.le_total a.CreateDate b.CreateDate⟩

instance : IsTrans PolicyVersion byCreateDate :=
  ⟨fun _ _ _ h h2 => Nat.le_trans h h2⟩

/-- get_oldest_policy_version_id (utils.py lines 60-65): sort the versions
by CreateDate; return the first VersionId if the first version is not the
default, else the second VersionId if there is one, else Python's implicit
None.  The outer none models the IndexError raised on an empty list. -/
def get_oldest_policy_version_id (policy_versions : List PolicyVersion) :
    Option (Option String) :=
  match policy_versions.insertionSort byCreateDate with
  | [] => none
  | v0 :: rest =>
    if !v0.IsDefaultVersion then some (some v0.VersionId)
    else
      match rest with
      | v1 :: _ => some (some v1.VersionId)
      | [] => some none

/-- change_type values of a ProposedChange (iambic.core.models
ProposedChangeType). -/
inductive ProposedChangeType where
  | create
  | update
  | delete
  | attach
  | detach
deriving DecidableEq, Repr

/-- One tag, with AWS's Key/Value field names. -/
structure Tag where
  Key : String
  Value : String
deriving DecidableEq, Repr

/-- Payload carried by a ProposedChange field: a policy document, a single
tag, a list of tag keys, or an opaque marker for the DeepDiff object
produced from the two documents. -/
inductive ChangeVal where
  | doc (d : JVal)
  | tagv (t : Tag)
  | tagKeys (l : List String)
  | diffOf (current new : JVal)
deriving Repr

/-- ProposedChange record (iambic.core.models): change type, attribute name
(the source field is called attribute, a keyword here) and the optional
summary / current / new values populated by the caller. -/
structure ProposedChange where
  change_type : ProposedChangeType
  attr : String
  change_summary : Option ChangeVal := none
  current_value : Option ChangeVal := none
  new_value : Option ChangeVal := none
deriving Repr

/-- Description of one provider (boto3 iam client) call issued by the
reconciler, in issue order. -/
inductive IamCall where
  | list_policy_versions (arn : String)
  | delete_policy_version (arn : String) (version_id : Option String)
  | create_policy_version (arn : String) (document : JVal)
  | untag_policy (arn : String) (tag_keys : List String)
  | tag_policy (arn : String) (tags : List Tag)
deriving Repr

/-- update_managed_policy (utils.py lines 99-151), with the policy-document
inputs already parsed (the isinstance-str branch merely json-parses a
string-encoded document) and the list_policy_versions response supplied as
policy_versions.  Returns the ProposedChange list and the trace of provider
calls.  Under the length-5 guard the version list is non-empty, so the
IndexError branch of get_oldest_policy_version_id cannot fire; a none
version id models Python passing VersionId=None. -/
def update_managed_policy (policy_arn : String) (policy_versions : List PolicyVersion)
    (template_policy_document existing_policy_document : JVal)
    (read_only : Bool) : List ProposedChange × List IamCall :=
  if !(deepEq existing_policy_document template_policy_document) then
    let response : List ProposedChange :=
      [{ change_type := ProposedChangeType.update
         attr := "policy_document"
         change_summary :=
           some (ChangeVal.diffOf existing_policy_document template_policy_document)
         current_value := some (ChangeVal.doc existing_policy_document)
         new_value := some (ChangeVal.doc template_policy_document) }]
    let calls : List IamCall :=
      if !read_only then
        [IamCall.list_policy_versions policy_arn] ++
        (if policy_versions.length == 5 then
          match get_oldest_policy_version_id policy_versions with
          | some ov => [IamCall.delete_policy_version policy_arn ov]
          | none => []
        else []) ++
        [IamCall.create_policy_version policy_arn template_policy_document]
      else []
    (response, calls)
  else ([], [])

/-- Python dict construction from a tag list followed by .get(Key): the
last occurrence of a key wins. -/
def dictGet (tags : List Tag) (k : String) : Option String :=
  tags.foldl (fun acc t => if t.Key == k then some t.Value else acc) none

/-- Python falsy test on a .get result: None and the empty string are both
falsy. -/
def pyFalsy : Option String → Bool
  | none => true
  | some v => v == ""

/-- apply_managed_policy_tags (utils.py lines 154-215): tags_to_apply are
the template tags whose value differs from the live value (or whose key is
absent); tags_to_remove are the live keys whose template lookup is falsy.
A DETACH record is appended when removals exist, then one ATTACH record per
applied tag.  The untag task is queued when removals exist and the
read-only flag is off; the tag task is queued when applications exist and
context.execute is on.  Returns the ProposedChange list and the task queue
in queueing order. -/
def apply_managed_policy_tags (policy_arn : String)
    (template_tags existing_tags : List Tag)
    (read_only context_execute : Bool) : List ProposedChange × List IamCall :=
  let tags_to_apply :=
    template_tags.filter (fun tag => !(dictGet existing_tags tag.Key == some tag.Value))
  let tags_to_remove :=
    (existing_tags.filter (fun tag => pyFalsy (dictGet template_tags tag.Key))).map
      (fun tag => tag.Key)
  let response : List ProposedChange :=
    (if !tags_to_remove.isEmpty then
      [{ change_type := ProposedChangeType.detach
         attr := "tags"
         change_summary := some (ChangeVal.tagKeys tags_to_remove) }]
    else []) ++
    tags_to_apply.map (fun tag =>
      { change_type := ProposedChangeType.attach
        attr := "tags"
        new_value := some (ChangeVal.tagv tag) })
  let tasks : List IamCall :=
    (if !tags_to_remove.isEmpty && !read_only then
      [IamCall.untag_policy policy_arn tags_to_remove]
    else []) ++
    (if !tags_to_apply.isEmpty && context_execute then
      [IamCall.tag_policy policy_arn tags_to_apply]
    else [])
  (response, tasks)

/-- Provider error raised by an iam client call: a botocore ClientError
carrying its response Error Code, or any other exception type. -/
inductive AwsError where
  | clientError (code : String)
  | otherError (name : String)
deriving DecidableEq, Repr

/-- Responses of the iam client calls made by get_managed_policy: the
get_policy response (none models a falsy/empty Policy payload, some carries
the DefaultVersionId and the remaining policy fields), and the
get_policy_version response per requested version id (already projected to
PolicyVersion.Document as in utils.py lines 26-39). -/
structure IamPolicyClient where
  get_policy : Except AwsError (Option (String × List (String × JVal)))
  get_policy_version : String → Except AwsError JVal

/-- get_managed_policy (utils.py lines 42-57): fetch the policy; when the
payload is non-empty, pop DefaultVersionId and fetch that version's
document as PolicyDocument.  A ClientError with code NoSuchEntity raised
anywhere inside the try block yields the empty response; every other error
propagates unchanged. -/
def get_managed_policy (client : IamPolicyClient) :
    Except AwsError (Option (List (String × JVal) × JVal)) :=
  let attempt : Except AwsError (Option (List (String × JVal) × JVal)) :=
    match client.get_policy with
    | Except.error e => Except.error e
    | Except.ok none => Except.ok none
    | Except.ok (some (default_version_id, fields)) =>
      match client.get_policy_version default_version_id with
      | Except.error e => Except.error e
      | Except.ok doc => Except.ok (some (fields, doc))
  match attempt with
  | Except.error (AwsError.clientError code) =>
    if code = "NoSuchEntity" then Except.ok none
    else Except.error (AwsError.clientError code)
  | r => r

/-- GitDiff record (git.py lines 17-20), with the content string replaced
by its parsed document (content is only ever yaml-loaded downstream). -/
structure GitDiff where
  path : String
  content : Option JVal := none
  is_deleted : Bool := false
deriving Repr

/-- Models os.path.join(repo_dir, p) for a relative second component. -/
def pathJoin (dir p : String) : String :=
  dir ++ "/" ++ p

/-- Models str.endswith(suf): the suffix read backwards is a forward
segment of the string read backwards. -/
def strEndsWith (s suf : String) : Bool :=
  startsWithL suf.data.reverse s.data.reverse

/-- Modelled from the spec: the template registry (TEMPLATE_TYPE_MAP, not
under src/) parses a structured document into a typed Template exposing a
resource_name identity key; modelled as the document's resource_name field. -/
def resource_name_of (doc : JVal) : String :=
  match doc with
  | JVal.obj l =>
    match lookupJ "resource_name" l with
    | some (JVal.prim s) => s
    | _ => ""
  | _ => ""

/-- One modified-file entry of the diff index consumed by the
retrieve_git_changes loop at git.py lines 56-91: the old and new paths, the
parsed old blob content (a_doc) and parsed working-tree content (b_doc),
and the two NOQ-template-marker tests, modelled from the spec as Booleans
because NOQ_TEMPLATE_REGEX and file_regex_search live outside src/
(a_marker: the marker occurs in the old blob content; b_marker: the marker
occurs in the working-tree file at the new path). -/
structure ModifiedFileObj where
  a_path : String
  b_path : String
  a_doc : JVal
  b_doc : JVal
  a_marker : Bool
  b_marker : Bool

/-- Body of the modified-files loop of retrieve_git_changes (git.py lines
56-91) for one diff entry: returns the (new_files, deleted_files,
modified_files) contributions of the entry.  The joined new path is
compared with the raw a_path, the rename branch deep-compares the parsed
documents ignoring order, and a changed resource_name turns the rename
into delete-old plus create-new. -/
def retrieve_git_changes_modified (repo_dir : String) (f : ModifiedFileObj) :
    List GitDiff × List GitDiff × List GitDiff :=
  let path := pathJoin repo_dir f.b_path
  if !(strEndsWith path ".yaml" && f.b_marker) then ([], [], [])
  else if f.a_path != path then
    let deleted_file : GitDiff :=
      { path := pathJoin repo_dir f.a_path, content := some f.a_doc, is_deleted := true }
    if f.a_marker then
      if deepEq f.b_doc f.a_doc then ([], [], [])
      else if resource_name_of f.a_doc != resource_name_of f.b_doc then
        ([{ path := path }], [deleted_file], [])
      else ([], [], [{ path := path, content := some f.a_doc }])
    else ([], [], [{ path := path, content := some f.a_doc }])
  else ([], [], [{ path := path, content := some f.a_doc }])

/-- Characterization of get_oldest_policy_version_id on non-empty version
lists with at most one default version: either it returns the id of a
non-default version with minimal CreateDate, or the list is the singleton
default and it returns Python's implicit None. -/
theorem getOldest_spec (l : List PolicyVersion)
    (hne : l ≠ [])
    (hdef : (l.filter (fun v => v.IsDefaultVersion)).length ≤ 1) :
    (∃ v, v ∈ l ∧ v.IsDefaultVersion = false ∧
      (∀ w ∈ l, w.IsDefaultVersion = false → v.CreateDate ≤ w.CreateDate) ∧
      get_oldest_policy_version_id l = some (some v.VersionId)) ∨
    (∃ d, l = [d] ∧ d.IsDefaultVersion = true ∧
      get_oldest_policy_version_id l = some none) := by
  have hperm : List.Perm (l.insertionSort byCreateDate) l := List.perm_insertionSort _ _
  have hsort : List.Sorted byCreateDate (l.insertionSort byCreateDate) :=
    List.sorted_insertionSort _ _
  rcases hseq : l.insertionSort byCreateDate with _ | ⟨v0, rest⟩
  · rw [hseq] at hperm
    exact absurd hperm.symm.eq_nil hne
  · rw [hseq] at hperm hsort
    by_cases hd : v0.IsDefaultVersion
    · rcases rest with _ | ⟨v1, rest2⟩
      · right
        refine ⟨v0, List.perm_singleton.mp hperm.symm, hd, ?_⟩
        simp [get_oldest_policy_version_id, hseq, hd]
      · left
        have hv1mem : v1 ∈ l := hperm.mem_iff.mp (by simp)
        have hv1nd : v1.IsDefaultVersion = false := by
          by_contra hcon
          have hv1d : v1.IsDefaultVersion = true := by
            revert hcon; cases v1.IsDefaultVersion <;> simp
          have hflen : ((v0 :: v1 :: rest2).filter
              (fun v => v.IsDefaultVersion)).length =
              (l.filter (fun v => v.IsDefaultVersion)).length :=
            (hperm.filter _).length_eq
          rw [List.filter_cons_of_pos hd, List.filter_cons_of_pos hv1d] at hflen
          simp only [List.length_cons] at hflen
          omega
        refine ⟨v1, hv1mem, hv1nd, ?_, ?_⟩
        · intro w hw hwnd
          have hwmem : w ∈ v0 :: v1 :: rest2 := hperm.mem_iff.mpr hw
          rw [List.mem_cons] at hwmem
          rcases hwmem with rfl | hwmem
          · simp [hd] at hwnd
          · rw [List.mem_cons] at hwmem
            rcases hwmem with rfl | hwmem
            · exact Nat.le_refl _
            · exact List.rel_of_sorted_cons hsort.of_cons w hwmem
        · simp [get_oldest_policy_version_id, hseq, hd]
    · left
      have hv0nd : v0.IsDefaultVersion = false := by
        revert hd; cases v0.IsDefaultVersion <;> simp
      refine ⟨v0, hperm.mem_iff.mp (by simp), hv0nd, ?_, ?_⟩
      · intro w hw _
        have hwmem : w ∈ v0 :: rest := hperm.mem_iff.mpr hw
        rw [List.mem_cons] at hwmem
        rcases hwmem with rfl | hwmem
        · exact Nat.le_refl _
        · exact List.rel_of_sorted_cons hsort w hwmem
      · simp [get_oldest_policy_version_id, hseq, hv0nd]

/-- C9: on a non-empty version list with at most one default version,
get_oldest_policy_version_id returns the VersionId of a non-default version
with the earliest CreateDate; when the only element is the default it
returns no id (Python None); on the empty list its first indexing operation
is out of bounds (modelled by the outer none), so the function is not total. -/
theorem C9_oldest_version_id :
    (∀ l : List PolicyVersion, l ≠ [] →
      (l.filter (fun v => v.IsDefaultVersion)).length ≤ 1 →
      ((∃ v, v ∈ l ∧ v.IsDefaultVersion = false ∧
        (∀ w ∈ l, w.IsDefaultVersion = false → v.CreateDate ≤ w.CreateDate) ∧
        get_oldest_policy_version_id l = some (some v.VersionId)) ∨
      (∃ d, l = [d] ∧ d.IsDefaultVersion = true ∧
        get_oldest_policy_version_id l = some none))) ∧
    get_oldest_policy_version_id [] = none :=
  ⟨getOldest_spec, rfl⟩

/-- C9 witness: the characterization applied to a concrete two-version list
whose non-default version is "A". -/
theorem C9_oldest_version_id_witness :
    (∃ v, v ∈ [PolicyVersion.mk "A" false 3, PolicyVersion.mk "B" true 1] ∧
      v.IsDefaultVersion = false ∧
      (∀ w ∈ [PolicyVersion.mk "A" false 3, PolicyVersion.mk "B" true 1],
        w.IsDefaultVersion = false → v.CreateDate ≤ w.CreateDate) ∧
      get_oldest_policy_version_id
        [PolicyVersion.mk "A" false 3, PolicyVersion.mk "B" true 1] =
        some (some v.VersionId)) ∨
    (∃ d, [PolicyVersion.mk "A" false 3, PolicyVersion.mk "B" true 1] = [d] ∧
      d.IsDefaultVersion = true ∧
      get_oldest_policy_version_id
        [PolicyVersion.mk "A" false 3, PolicyVersion.mk "B" true 1] = some none) :=
  C9_oldest_version_id.1 [PolicyVersion.mk "A" false 3, PolicyVersion.mk "B" true 1]
    (by decide) (by decide)

/-- C5: when the desired document differs from the live one and the mode is
execute (read_only = false), update_managed_policy first fetches the
version list; it deletes a version if and only if the list has exactly 5
entries, and the deleted version is a non-default one with the earliest
CreateDate; exactly one create_policy_version call follows. -/
theorem C5_version_rotation (policy_arn : String) (l : List PolicyVersion)
    (template_doc existing_doc : JVal)
    (hdrift : deepEq existing_doc template_doc = false)
    (hdef : (l.filter (fun v => v.IsDefaultVersion)).length ≤ 1) :
    (l.length = 5 →
      ∃ v, v ∈ l ∧ v.IsDefaultVersion = false ∧
        (∀ w ∈ l, w.IsDefaultVersion = false → v.CreateDate ≤ w.CreateDate) ∧
        (update_managed_policy policy_arn l template_doc existing_doc false).2 =
          [IamCall.list_policy_versions policy_arn,
           IamCall.delete_policy_version policy_arn (some v.VersionId),
           IamCall.create_policy_version policy_arn template_doc]) ∧
    (l.length ≠ 5 →
      (update_managed_policy policy_arn l template_doc existing_doc false).2 =
        [IamCall.list_policy_versions policy_arn,
         IamCall.create_policy_version policy_arn template_doc]) := by
  constructor
  · intro hlen
    have hne : l ≠ [] := by intro h; rw [h] at hlen; simp at hlen
    rcases getOldest_spec l hne hdef with ⟨v, hv, hvnd, hvmin, hoid⟩ | ⟨d, hld, _, _⟩
    · refine ⟨v, hv, hvnd, hvmin, ?_⟩
      simp [update_managed_policy, hdrift, hlen, hoid]
    · rw [hld] at hlen; simp at hlen
  · intro hlen
    simp [update_managed_policy, hdrift, hlen]

/-- C5 witness: rotation on a concrete 5-version list (default is "v5",
oldest non-default is "v1") with two differing documents. -/
theorem C5_version_rotation_witness :
    ∃ v, v ∈ [PolicyVersion.mk "v1" false 1, PolicyVersion.mk "v2" false 2,
        PolicyVersion.mk "v3" false 3, PolicyVersion.mk "v4" false 4,
        PolicyVersion.mk "v5" true 5] ∧ v.IsDefaultVersion = false ∧
      (∀ w ∈ [PolicyVersion.mk "v1" false 1, PolicyVersion.mk "v2" false 2,
          PolicyVersion.mk "v3" false 3, PolicyVersion.mk "v4" false 4,
          PolicyVersion.mk "v5" true 5],
        w.IsDefaultVersion = false → v.CreateDate ≤ w.CreateDate) ∧
      (update_managed_policy "arn:p"
        [PolicyVersion.mk "v1" false 1, PolicyVersion.mk "v2" false 2,
         PolicyVersion.mk "v3" false 3, PolicyVersion.mk "v4" false 4,
         PolicyVersion.mk "v5" true 5]
        (JVal.prim "new") (JVal.prim "old") false).2 =
        [IamCall.list_policy_versions "arn:p",
         IamCall.delete_policy_version "arn:p" (some v.VersionId),
         IamCall.create_policy_version "arn:p" (JVal.prim "new")] :=
  (C5_version_rotation "arn:p"
    [PolicyVersion.mk "v1" false 1, PolicyVersion.mk "v2" false 2,
     PolicyVersion.mk "v3" false 3, PolicyVersion.mk "v4" false 4,
     PolicyVersion.mk "v5" true 5]
    (JVal.prim "new") (JVal.prim "old") (by decide) (by decide)).1 (by decide)

/-- C3 counterexample: with the read-only flag set but context.execute set,
apply_managed_policy_tags still queues a tag_policy provider call, so
read-only mode does not suppress all provider calls as the claim states. -/
theorem C3_counterexample :
    (apply_managed_policy_tags "arn:p" [Tag.mk "a" "1"] [] true true).2 =
      [IamCall.tag_policy "arn:p" [Tag.mk "a" "1"]] := rfl

/-- C3 amended: update_managed_policy issues no provider call when the
read-only flag is set; apply_managed_policy_tags issues no provider call
when the read-only flag is set and context.execute is unset (untagging is
gated by the read-only flag but tagging by context.execute); and both
functions return a ProposedChange list independent of both flags. -/
theorem C3_read_only_gating :
    (∀ arn l tdoc edoc, (update_managed_policy arn l tdoc edoc true).2 = []) ∧
    (∀ arn tt et, (apply_managed_policy_tags arn tt et true false).2 = []) ∧
    (∀ arn l tdoc edoc ro, (update_managed_policy arn l tdoc edoc ro).1 =
      (update_managed_policy arn l tdoc edoc false).1) ∧
    (∀ arn tt et ro ce, (apply_managed_policy_tags arn tt et ro ce).1 =
      (apply_managed_policy_tags arn tt et false true).1) := by
  refine ⟨?_, ?_, ?_, ?_⟩
  · intro arn l tdoc edoc
    simp only [update_managed_policy]
    split <;> rfl
  · intro arn tt et
    simp [apply_managed_policy_tags]
  · intro arn l tdoc edoc ro
    simp only [update_managed_policy]
    split <;> rfl
  · intro arn tt et ro ce
    simp [apply_managed_policy_tags]

/-- C6 counterexample: for existing tags a:1, b:2 and desired tags b:3, c:4
the returned ProposedChange list has three records (one DETACH plus one
ATTACH per applied tag), not the two records the claim states. -/
theorem C6_counterexample :
    (apply_managed_policy_tags "arn:p" [Tag.mk "b" "3", Tag.mk "c" "4"]
      [Tag.mk "a" "1", Tag.mk "b" "2"] false true).1.length = 3 := rfl

/-- C6 amended: for existing tags a:1, b:2 and desired tags b:3, c:4,
apply_managed_policy_tags schedules removal of key a and application of b:3
and c:4, queues the untag call before the tag call, and returns exactly
three ProposedChange records: a DETACH listing key a and one ATTACH per
applied tag. -/
theorem C6_tag_convergence :
    apply_managed_policy_tags "arn:p" [Tag.mk "b" "3", Tag.mk "c" "4"]
      [Tag.mk "a" "1", Tag.mk "b" "2"] false true =
    ([{ change_type := ProposedChangeType.detach, attr := "tags",
        change_summary := some (ChangeVal.tagKeys ["a"]) },
      { change_type := ProposedChangeType.attach, attr := "tags",
        new_value := some (ChangeVal.tagv (Tag.mk "b" "3")) },
      { change_type := ProposedChangeType.attach, attr := "tags",
        new_value := some (ChangeVal.tagv (Tag.mk "c" "4")) }],
     [IamCall.untag_policy "arn:p" ["a"],
      IamCall.tag_policy "arn:p" [Tag.mk "b" "3", Tag.mk "c" "4"]]) := rfl

/-- C10: a desired tag with empty-string Value is falsy for the removal
computation, so live tag a:1 with desired tag a:"" is scheduled both for
removal (DETACH, untag of key a) and for application (ATTACH of a:"", tag
call) in one invocation. -/
theorem C10_falsy_tag_value :
    apply_managed_policy_tags "arn:p" [Tag.mk "a" ""] [Tag.mk "a" "1"] false true =
    ([{ change_type := ProposedChangeType.detach, attr := "tags",
        change_summary := some (ChangeVal.tagKeys ["a"]) },
      { change_type := ProposedChangeType.attach, attr := "tags",
        new_value := some (ChangeVal.tagv (Tag.mk "a" "")) }],
     [IamCall.untag_policy "arn:p" ["a"],
      IamCall.tag_policy "arn:p" [Tag.mk "a" ""]]) := rfl

/-- C7: get_managed_policy returns the empty result when a provider call
inside its try block fails with ClientError code NoSuchEntity, and
re-raises every other provider error unchanged, whether raised by
get_policy or by the follow-up get_policy_version fetch. -/
theorem C7_not_found_normalization (client : IamPolicyClient) :
    (∀ e, client.get_policy = Except.error e →
      get_managed_policy client =
        (if e = AwsError.clientError "NoSuchEntity" then Except.ok none
         else Except.error e)) ∧
    (∀ e dvid fields, client.get_policy = Except.ok (some (dvid, fields)) →
      client.get_policy_version dvid = Except.error e →
      get_managed_policy client =
        (if e = AwsError.clientError "NoSuchEntity" then Except.ok none
         else Except.error e)) := by
  constructor
  · intro e he
    rcases e with code | nm
    · by_cases hc : code = "NoSuchEntity" <;>
        simp [get_managed_policy, he, hc]
    · simp [get_managed_policy, he]
  · intro e dvid fields hp hv
    rcases e with code | nm
    · by_cases hc : code = "NoSuchEntity" <;>
        simp [get_managed_policy, hp, hv, hc]
    · simp [get_managed_policy, hp, hv]

/-- C7 witness: a concrete client whose get_policy raises NoSuchEntity
yields the empty result. -/
theorem C7_not_found_normalization_witness :
    get_managed_policy
      { get_policy := Except.error (AwsError.clientError "NoSuchEntity")
        get_policy_version := fun _ => Except.ok (JVal.prim "d") } =
      (if AwsError.clientError "NoSuchEntity" = AwsError.clientError "NoSuchEntity"
       then Except.ok none else Except.error (AwsError.clientError "NoSuchEntity")) :=
  (C7_not_found_normalization
    { get_policy := Except.error (AwsError.clientError "NoSuchEntity")
      get_policy_version := fun _ => Except.ok (JVal.prim "d") }).1
    (AwsError.clientError "NoSuchEntity") rfl

/-- C8: for a renamed template file (old marker present, new path a yaml
template), the modified-files loop of retrieve_git_changes emits nothing
when the parsed contents are structurally equal ignoring order and share a
resource_name, and emits delete-old plus create-new (never a modified
entry) when the resource_name changed. -/
theorem C8_rename_classification (repo_dir : String) (f : ModifiedFileObj)
    (hyaml : strEndsWith (pathJoin repo_dir f.b_path) ".yaml" = true)
    (hbm : f.b_marker = true)
    (ham : f.a_marker = true)
    (hren : f.a_path ≠ pathJoin repo_dir f.b_path) :
    (deepEq f.b_doc f.a_doc = true →
      resource_name_of f.a_doc = resource_name_of f.b_doc →
      retrieve_git_changes_modified repo_dir f = ([], [], [])) ∧
    (deepEq f.b_doc f.a_doc = false →
      resource_name_of f.a_doc ≠ resource_name_of f.b_doc →
      retrieve_git_changes_modified repo_dir f =
        ([{ path := pathJoin repo_dir f.b_path }],
         [{ path := pathJoin repo_dir f.a_path, content := some f.a_doc,
            is_deleted := true }], [])) := by
  have hb : (f.a_path != pathJoin repo_dir f.b_path) = true := by
    simp [bne_iff_ne, hren]
  constructor
  · intro hde _
    simp [retrieve_git_changes_modified, hyaml, hbm, ham, hb, hde]
  · intro hde hrn
    have hrnb : (resource_name_of f.a_doc != resource_name_of f.b_doc) = true := by
      simp [bne_iff_ne, hrn]
    simp [retrieve_git_changes_modified, hyaml, hbm, ham, hb, hde, hrnb]

/-- C8 witness: a concrete rename whose parsed contents are equal up to
ordering (object keys permuted) emits nothing. -/
theorem C8_rename_classification_witness :
    retrieve_git_changes_modified "repo"
      { a_path := "old.yaml", b_path := "new.yaml"
        a_doc := JVal.obj [("resource_name", JVal.prim "r"), ("k", JVal.prim "x")]
        b_doc := JVal.obj [("k", JVal.prim "x"), ("resource_name", JVal.prim "r")]
        a_marker := true, b_marker := true } = ([], [], []) :=
  (C8_rename_classification "repo"
    { a_path := "old.yaml", b_path := "new.yaml"
      a_doc := JVal.obj [("resource_name", JVal.prim "r"), ("k", JVal.prim "x")]
      b_doc := JVal.obj [("k", JVal.prim "x"), ("resource_name", JVal.prim "r")]
      a_marker := true, b_marker := true }
    (by decide) rfl rfl (by decide)).1 (by decide) (by decide)

/-- C1 counterexample: with roster account (id 3, name prod), old scope
["*"] and new scope included ["dev"], excluded ["prod"], the account's name
matches the new excluded_accounts list, yet the account is still marked
for deletion (its pattern "(3|prod)" is recorded and re-added), because the
wildcard step consults only the new included_accounts; this refutes the
claim that exactly the accounts matching nothing in the new account lists
are marked and that matching accounts are left untouched. -/
theorem C1_counterexample :
    accountMatchesStr (Account.mk "3" "prod") (joinNL ["prod"]) = true ∧
    create_templates_for_modified_files [Account.mk "3" "prod"]
      [(Template.mk "r" ["*"] [] (DeletedVal.flag false),
        Template.mk "r" ["dev"] ["prod"] (DeletedVal.flag false))] =
      [Template.mk "r" ["dev", "(3|prod)", "prod"] []
        (DeletedVal.records [Deleted.mk ["(3|prod)", "prod"] ["dev"]])] := by
  decide

/-- C1 amended: when the old included_accounts contain "*", the new
included_accounts do not, and no accounts are newly excluded,
create_templates_for_modified_files marks for deletion exactly the roster
accounts whose id|name pattern matches nothing in the new
included_accounts (the new excluded_accounts are not consulted), re-adds
each such account's pattern to the returned included_accounts, and leaves
matching roster accounts untouched. -/
theorem C1_wildcard_removal (accounts : List Account) (mt t : Template)
    (hw : mt.included_accounts.contains "*" = true)
    (hnw : t.included_accounts.contains "*" = false)
    (hex : t.excluded_accounts = [])
    (hdel : t.deleted = DeletedVal.flag false)
    (hm : accounts.filter
        (fun a => !(accountMatchesStr a (joinNL t.included_accounts))) ≠ []) :
    create_templates_for_modified_files accounts [(mt, t)] =
      [{ resource_name := t.resource_name
         included_accounts := t.included_accounts ++
           (accounts.filter
             (fun a => !(accountMatchesStr a (joinNL t.included_accounts)))).map
             accountRegex
         excluded_accounts := []
         deleted := DeletedVal.records
           [Deleted.mk
             ((accounts.filter
               (fun a => !(accountMatchesStr a (joinNL t.included_accounts)))).map
               accountRegex)
             (t.included_accounts.filter (fun ea => !(ea == "*")))] }] := by
  have hw2 : "*" ∈ mt.included_accounts := by simpa using hw
  have hnw2 : "*" ∉ t.included_accounts := by simpa using hnw
  have hm2 : (accounts.filter
      (fun a => !(accountMatchesStr a (joinNL t.included_accounts)))).map
      accountRegex ≠ [] := by
    simpa using hm
  simp [create_templates_for_modified_files, processModifiedTemplate,
    deleted_included_accounts, includedRemovalMarks, wildcardRemovedMarks,
    excludedRemovalMarks, keptExcluded, hw2, hnw2, hex, hdel, hm2]

/-- C1 witness: the claim's own example: old ["*"], new ["dev","staging"],
roster dev, staging, prod yields prod marked deleted and re-added, dev and
staging untouched. -/
theorem C1_wildcard_removal_witness :
    create_templates_for_modified_files
      [Account.mk "1" "dev", Account.mk "2" "staging", Account.mk "3" "prod"]
      [(Template.mk "r" ["*"] [] (DeletedVal.flag false),
        Template.mk "r" ["dev", "staging"] [] (DeletedVal.flag false))] =
      [{ resource_name := "r"
         included_accounts := ["dev", "staging"] ++
           (([Account.mk "1" "dev", Account.mk "2" "staging",
              Account.mk "3" "prod"].filter
             (fun a => !(accountMatchesStr a (joinNL ["dev", "staging"])))).map
             accountRegex)
         excluded_accounts := []
         deleted := DeletedVal.records
           [Deleted.mk
             (([Account.mk "1" "dev", Account.mk "2" "staging",
                Account.mk "3" "prod"].filter
               (fun a => !(accountMatchesStr a (joinNL ["dev", "staging"])))).map
               accountRegex)
             (["dev", "staging"].filter (fun ea => !(ea == "*")))] }] :=
  C1_wildcard_removal
    [Account.mk "1" "dev", Account.mk "2" "staging", Account.mk "3" "prod"]
    (Template.mk "r" ["*"] [] (DeletedVal.flag false))
    (Template.mk "r" ["dev", "staging"] [] (DeletedVal.flag false))
    (by decide) (by decide) rfl rfl (by decide)

/-- C2 counterexample: old template included ["prod","staging"], excluded
["x"]; new template included ["staging"].  The appended Deleted record's
excluded_accounts is ["staging"] (the new included_accounts snapshot minus
"*"), not the old template's excluded_accounts ["x"] minus "*" as the claim
states. -/
theorem C2_counterexample :
    create_templates_for_modified_files []
      [(Template.mk "r" ["prod", "staging"] ["x"] (DeletedVal.flag false),
        Template.mk "r" ["staging"] [] (DeletedVal.flag false))] =
      [Template.mk "r" ["staging", "prod"] []
        (DeletedVal.records [Deleted.mk ["prod"] ["staging"]])] ∧
    (["staging"] : List String) ≠ ["x"].filter (fun ea => !(ea == "*")) := by
  decide

/-- C2 amended: when at least one account is marked deleted,
create_templates_for_modified_files appends exactly one new Deleted record
whose included_accounts is the full deletion-mark list and whose
excluded_accounts is the new template's included_accounts snapshot minus
"*", to the existing deletion-record sequence, preserving prior records; a
wholly deleted template (deleted = True) gets no record. -/
theorem C2_deleted_record_append (accounts : List Account) (mt t : Template)
    (hm : deleted_included_accounts accounts mt t ≠ []) :
    (t.deleted = DeletedVal.flag true →
      (processModifiedTemplate accounts mt t).deleted = DeletedVal.flag true) ∧
    (t.deleted = DeletedVal.flag false →
      (processModifiedTemplate accounts mt t).deleted =
        DeletedVal.records [Deleted.mk (deleted_included_accounts accounts mt t)
          (t.included_accounts.filter (fun ea => !(ea == "*")))]) ∧
    (∀ recs, t.deleted = DeletedVal.records recs →
      (processModifiedTemplate accounts mt t).deleted =
        DeletedVal.records (recs ++ [Deleted.mk (deleted_included_accounts accounts mt t)
          (t.included_accounts.filter (fun ea => !(ea == "*")))])) := by
  have hmm : (deleted_included_accounts accounts mt t).isEmpty = false := by
    rcases h : deleted_included_accounts accounts mt t with _ | _
    · exact absurd h hm
    · simp
  refine ⟨?_, ?_, ?_⟩
  · intro hdel
    simp [processModifiedTemplate, hdel]
  · intro hdel
    simp [processModifiedTemplate, hdel, hmm]
  · intro recs hdel
    simp [processModifiedTemplate, hdel, hmm]

/-- C2 witness: the amended record shape on the concrete counterexample
input (deleted goes from False to one record). -/
theorem C2_deleted_record_append_witness :
    (processModifiedTemplate []
      (Template.mk "r" ["prod", "staging"] ["x"] (DeletedVal.flag false))
      (Template.mk "r" ["staging"] [] (DeletedVal.flag false))).deleted =
      DeletedVal.records [Deleted.mk (deleted_included_accounts []
          (Template.mk "r" ["prod", "staging"] ["x"] (DeletedVal.flag false))
          (Template.mk "r" ["staging"] [] (DeletedVal.flag false)))
        (["staging"].filter (fun ea => !(ea == "*")))] :=
  (C2_deleted_record_append []
    (Template.mk "r" ["prod", "staging"] ["x"] (DeletedVal.flag false))
    (Template.mk "r" ["staging"] [] (DeletedVal.flag false)) (by decide)).2.1 rfl

/-- C4 counterexample: old template included ["prod"], excluded ["prod"];
new template included ["dev"], excluded ["prod"].  The pattern "prod" is
marked for deletion by the removed-from-included step, yet it remains in
the returned excluded_accounts, so the final excluded_accounts is not the
set of excluded patterns that are not marked for deletion. -/
theorem C4_counterexample :
    create_templates_for_modified_files []
      [(Template.mk "r" ["prod"] ["prod"] (DeletedVal.flag false),
        Template.mk "r" ["dev"] ["prod"] (DeletedVal.flag false))] =
      [Template.mk "r" ["dev", "prod"] ["prod"]
        (DeletedVal.records [Deleted.mk ["prod"] ["dev"]])] := by
  decide

/-- C4 amended: each pattern of the new excluded_accounts resolves by
exactly one of three disjoint outcomes in precedence order (already
excluded wins over previously included; otherwise merely excluded), and the
returned excluded_accounts is exactly the excluded patterns not marked for
deletion by the newly-excluded step (marks from the removed-from-included
steps do not remove a pattern from excluded_accounts). -/
theorem C4_excluded_resolution (accounts : List Account) (mt t : Template) :
    (∀ p ∈ t.excluded_accounts,
      ((joinNL mt.excluded_accounts ≠ "" ∧
          reSearch p (joinNL mt.excluded_accounts) = true) →
        p ∈ (processModifiedTemplate accounts mt t).excluded_accounts ∧
        p ∉ excludedRemovalMarks mt t) ∧
      (¬(joinNL mt.excluded_accounts ≠ "" ∧
          reSearch p (joinNL mt.excluded_accounts) = true) →
        (reSearch p (joinNL mt.included_accounts) = true ∨
          "*" ∈ mt.included_accounts) →
        p ∈ excludedRemovalMarks mt t ∧
        p ∉ (processModifiedTemplate accounts mt t).excluded_accounts) ∧
      (¬(joinNL mt.excluded_accounts ≠ "" ∧
          reSearch p (joinNL mt.excluded_accounts) = true) →
        ¬(reSearch p (joinNL mt.included_accounts) = true ∨
          "*" ∈ mt.included_accounts) →
        p ∈ (processModifiedTemplate accounts mt t).excluded_accounts ∧
        p ∉ excludedRemovalMarks mt t)) ∧
    (processModifiedTemplate accounts mt t).excluded_accounts =
      t.excluded_accounts.filter (fun p => !(newlyExcludedDeleted mt p)) ∧
    (deleted_included_accounts accounts mt t ≠ [] →
      t.deleted = DeletedVal.flag false →
      (processModifiedTemplate accounts mt t).deleted =
        DeletedVal.records [Deleted.mk
          (includedRemovalMarks accounts mt t ++ excludedRemovalMarks mt t)
          (t.included_accounts.filter (fun ea => !(ea == "*")))]) := by
  have hkept : (processModifiedTemplate accounts mt t).excluded_accounts =
      t.excluded_accounts.filter (fun p => !(newlyExcludedDeleted mt p)) := rfl
  refine ⟨?_, hkept, ?_⟩
  · intro p hp
    have hA : ∀ h1 : joinNL mt.excluded_accounts ≠ "" ∧
        reSearch p (joinNL mt.excluded_accounts) = true,
        newlyExcludedDeleted mt p = false := by
      intro h1
      have : alreadyExcluded mt p = true := by
        simp [alreadyExcluded, h1.1, h1.2]
      simp [newlyExcludedDeleted, this]
    refine ⟨?_, ?_, ?_⟩
    · intro h1
      have hnd := hA h1
      constructor
      · rw [hkept]
        exact List.mem_filter.mpr ⟨hp, by simp [hnd]⟩
      · intro hcon
        have := (List.mem_filter.mp hcon).2
        simp [hnd] at this
    · intro h1 h2
      have hae : alreadyExcluded mt p = false := by
        rcases eq_or_ne (joinNL mt.excluded_accounts) "" with he | he
        · simp [alreadyExcluded, he]
        · rcases hre : reSearch p (joinNL mt.excluded_accounts) with _ | _
          · simp [alreadyExcluded, hre]
          · exact absurd ⟨he, hre⟩ h1
      have hnd : newlyExcludedDeleted mt p = true := by
        rcases h2 with h2 | h2 <;> simp [newlyExcludedDeleted, hae, h2]
      constructor
      · exact List.mem_filter.mpr ⟨hp, hnd⟩
      · intro hcon
        rw [hkept] at hcon
        have := (List.mem_filter.mp hcon).2
        simp [hnd] at this
    · intro h1 h2
      have hae : alreadyExcluded mt p = false := by
        rcases eq_or_ne (joinNL mt.excluded_accounts) "" with he | he
        · simp [alreadyExcluded, he]
        · rcases hre : reSearch p (joinNL mt.excluded_accounts) with _ | _
          · simp [alreadyExcluded, hre]
          · exact absurd ⟨he, hre⟩ h1
      have hnd : newlyExcludedDeleted mt p = false := by
        push_neg at h2
        have hse : reSearch p (joinNL mt.included_accounts) = false := by
          simpa using h2.1
        simp [newlyExcludedDeleted, hae, hse, h2.2]
      constructor
      · rw [hkept]
        exact List.mem_filter.mpr ⟨hp, by simp [hnd]⟩
      · intro hcon
        have := (List.mem_filter.mp hcon).2
        simp [hnd] at this
  · intro hm hdel
    have hmm : (deleted_included_accounts accounts mt t).isEmpty = false := by
      rcases h : deleted_included_accounts accounts mt t with _ | _
      · exact absurd h hm
      · simp
    simp [processModifiedTemplate, hdel, hmm, deleted_included_accounts]
    intro h1 h2
    exact hm (by simp [deleted_included_accounts, h1, h2])

/-- C4 witness: the three-way resolution applied to a concrete newly
excluded pattern that was previously included (old scope prod, new scope
dev with prod excluded): prod lands in the deletion marks and not in the
returned excluded_accounts. -/
theorem C4_excluded_resolution_witness :
    "prod" ∈ excludedRemovalMarks
      (Template.mk "r" ["prod"] [] (DeletedVal.flag false))
      (Template.mk "r" ["dev"] ["prod"] (DeletedVal.flag false)) ∧
    "prod" ∉ (processModifiedTemplate []
      (Template.mk "r" ["prod"] [] (DeletedVal.flag false))
      (Template.mk "r" ["dev"] ["prod"] (DeletedVal.flag false))).excluded_accounts :=
  (((C4_excluded_resolution []
      (Template.mk "r" ["prod"] [] (DeletedVal.flag false))
      (Template.mk "r" ["dev"] ["prod"] (DeletedVal.flag false))).1
    "prod" (by decide)).2.1 (by decide) (Or.inl (by decide)))
